import Mathlib

/-!
Verification of the completion-polling utilities of the banking-mcp repository
(src/src/__tests__/e2e/test-utils.ts): the pollUntil loop, the six domain wait
wrappers and the retry-with-backoff helper, shallowly embedded in Lean.

Modelling conventions:
- A caller-supplied accessor (TS type () => Promise&lt;T&gt;) is modelled as a
  function from the 0-based invocation index to an Except String result; a
  rejected promise is an Except.error carrying the error message.
- Durations are Nat milliseconds. Time advances only at the sleep between
  attempts, so the elapsed time after k completed loop iterations is
  k * pollInterval; the while-loop guard (Date.now() - startTime < maxWait)
  of the source therefore admits exactly ceilDiv maxWait pollInterval
  iterations when no attempt hits the condition.
- TS option defaulting with the || operator (options.maxWait || 30000) is
  modelled by orDefault over Option Nat: both an omitted field and an
  explicit 0 select the default, exactly as || does on number options.
- Result values observed by the domain wrappers (Record&lt;string, unknown&gt;)
  are modelled as association lists of JVal values; JSON.stringify with
  indent 2 is modelled by stringifyObj.
-/

/-- A JSON-like runtime value, enough for the records the wrappers inspect. -/
inductive JVal where
  | str : String → JVal
  | num : Int → JVal
  | bool : Bool → JVal
  | null : JVal
deriving DecidableEq, Repr

/-- A Record&lt;string, unknown&gt; observed by a wrapper: an association list. -/
abbrev Obj := List (String × JVal)

/-- Field access o.k on a record: the first binding of the key, if any. -/
def lookupField (o : Obj) (k : String) : Option JVal :=
  match o with
  | [] => none
  | (k2, v) :: rest => if k2 = k then some v else lookupField rest k

/-- JS truthiness of a possibly-absent value (undefined, null, 0, false and
the empty string are falsy). -/
def jtruthy : Option JVal → Bool
  | none => false
  | some (JVal.str s) => decide (s ≠ "")
  | some (JVal.num n) => decide (n ≠ 0)
  | some (JVal.bool b) => b
  | some JVal.null => false

/-- The JS || operator on possibly-absent values: the left operand when
truthy, otherwise the right operand. -/
def jor (a b : Option JVal) : Option JVal :=
  if jtruthy a then a else b

/-- The JS Number() conversion on the values the claims exercise; none models
NaN (a string that does not parse as an integer). -/
def jnumber : JVal → Option Int
  | JVal.num n => some n
  | JVal.str s => s.toInt?
  | JVal.bool b => some (if b then 1 else 0)
  | JVal.null => some 0

/-- JSON.stringify of a single value. -/
def stringifyJVal : JVal → String
  | JVal.str s => "\"" ++ s ++ "\""
  | JVal.num n => toString n
  | JVal.bool b => if b then "true" else "false"
  | JVal.null => "null"

/-- JSON.stringify(o, null, 2) of a flat record, as pollUntil applies to the
last observed result. -/
def stringifyObj (o : Obj) : String :=
  match o with
  | [] => "\x7b\x7d"
  | _ =>
    "\x7b\n" ++
      String.intercalate ",\n"
        (o.map (fun kv => "  \"" ++ kv.1 ++ "\": " ++ stringifyJVal kv.2)) ++
      "\n\x7d"

/-- The options object of pollUntil; none models an omitted field. -/
structure PollOptions where
  maxWait : Option Nat := none
  pollInterval : Option Nat := none
  timeoutMessage : Option String := none
deriving DecidableEq

/-- TS defaulting v || d on a numeric option: an omitted field and an
explicit 0 both fall back to the default. -/
def orDefault (v : Option Nat) (d : Nat) : Nat :=
  match v with
  | none => d
  | some x => if x = 0 then d else x

/-- TS defaulting v || d on a string option: omitted and empty both fall
back to the default. -/
def orDefaultStr (v : Option String) (d : String) : String :=
  match v with
  | none => d
  | some s => if s = "" then d else s

/-- Outcome of one pollUntil run. ok carries the returned result and the
number of attempts made; timeout carries the attempt count and the last
successfully observed result (none when every attempt failed). -/
inductive PollOutcome (α : Type) where
  | ok : α → Nat → PollOutcome α
  | timeout : Nat → Option α → PollOutcome α
deriving DecidableEq

/-- Attempts (accessor invocations) performed during a run. -/
def pollCalls {α : Type} : PollOutcome α → Nat
  | PollOutcome.ok _ a => a
  | PollOutcome.timeout a _ => a

/-- Sleeps performed during a run: the successful iteration returns before
its sleep, every other iteration ends with one. -/
def pollSleeps {α : Type} : PollOutcome α → Nat
  | PollOutcome.ok _ a => a - 1
  | PollOutcome.timeout a _ => a

/-- Ceiling division, the number of loop iterations the guard
(elapsed < maxWait) admits at cadence pollInterval. -/
def ceilDiv (a b : Nat) : Nat := (a + b - 1) / b

/-- The while-loop of pollUntil. fuel is the number of iterations the time
budget still admits, attempts the attempts already made, last the last
successfully observed result. One iteration: invoke the accessor; on failure
suppress the error and continue; on success record the result, return it if
the condition accepts it, and continue otherwise. A thrown condition is
caught by the same try/catch as an accessor failure (the source evaluates
condition(result) inside the try block), after lastResult was updated. -/
def pollLoop {α : Type} (fn : Nat → Except String α) (cond : α → Except String Bool) :
    Nat → Nat → Option α → PollOutcome α
  | 0, attempts, last => PollOutcome.timeout attempts last
  | fuel + 1, attempts, last =>
    match fn attempts with
    | Except.error _ => pollLoop fn cond fuel (attempts + 1) last
    | Except.ok r =>
      match cond r with
      | Except.ok true => PollOutcome.ok r (attempts + 1)
      | Except.ok false => pollLoop fn cond fuel (attempts + 1) (some r)
      | Except.error _ => pollLoop fn cond fuel (attempts + 1) (some r)

/-- The pollUntil loop of test-utils.ts, lines 19 to 62, up to the thrown
timeout message (built separately by pollTimeoutMessage). -/
def pollUntil {α : Type} (fn : Nat → Except String α) (cond : α → Except String Bool)
    (options : PollOptions := {}) : PollOutcome α :=
  let maxWait := orDefault options.maxWait 30000
  let pollInterval := orDefault options.pollInterval 1000
  pollLoop fn cond (ceilDiv maxWait pollInterval) 0 none

/-- The default timeout message of pollUntil. -/
def defaultTimeoutMsg (maxWait attempts : Nat) : String :=
  "pollUntil: condition not met after " ++ toString maxWait ++ "ms (" ++
    toString attempts ++ " attempts)"

/-- The string interpolation of JSON.stringify(lastResult, null, 2): the
text undefined when no attempt ever succeeded. -/
def lastResultText {α : Type} (stringify : α → String) : Option α → String
  | none => "undefined"
  | some r => stringify r

/-- The message of the Error thrown on deadline exhaustion. -/
def pollTimeoutMessage {α : Type} (stringify : α → String) (options : PollOptions)
    (attempts : Nat) (last : Option α) : String :=
  orDefaultStr options.timeoutMessage
      (defaultTimeoutMsg (orDefault options.maxWait 30000) attempts) ++
    "\nLast result: " ++ lastResultText stringify last

/-- pollUntil as its callers see it: the returned value, or the thrown
timeout error message. -/
def pollUntilE {α : Type} (stringify : α → String) (fn : Nat → Except String α)
    (cond : α → Except String Bool) (options : PollOptions := {}) : Except String α :=
  match pollUntil fn cond options with
  | PollOutcome.ok r _ => Except.ok r
  | PollOutcome.timeout attempts last =>
    Except.error (pollTimeoutMessage stringify options attempts last)

/-- True when the run of a fallible computation failed. -/
def isErr {ε α : Type} : Except ε α → Bool
  | Except.error _ => true
  | Except.ok _ => false

/-- Terminal check of waitForBankAccountVerification (lines 80 to 83): the
observed state, read from verificationState with fallback to status, is
verified or approved. -/
def bankAccountTerminal (account : Obj) : Bool :=
  let state := jor (lookupField account "verificationState") (lookupField account "status")
  decide (state = some (JVal.str "verified")) || decide (state = some (JVal.str "approved"))

/-- The options waitForBankAccountVerification passes to pollUntil. -/
def bankVerificationOptions (bankAccountId : String) (maxWait : Nat) : PollOptions :=
  { maxWait := some maxWait
    pollInterval := some 5000
    timeoutMessage := some ("Bank account " ++ bankAccountId ++ " not verified after " ++
      toString maxWait ++ "ms") }

/-- waitForBankAccountVerification (lines 67 to 90). The TS function has
return type Promise&lt;void&gt;: it awaits pollUntil and discards the result, so
the model maps the success value to Unit. -/
def waitForBankAccountVerification (client : Nat → Except String Obj)
    (bankAccountId : String) (maxWait : Nat := 120000) : Except String Unit :=
  (pollUntilE stringifyObj client (fun account => Except.ok (bankAccountTerminal account))
    (bankVerificationOptions bankAccountId maxWait)).map (fun _ => ())

/-- Terminal check of waitForAchDebitCompletion: status is completed,
settled or done. -/
def achDebitTerminal (result : Obj) : Bool :=
  let status := lookupField result "status"
  decide (status = some (JVal.str "completed")) || decide (status = some (JVal.str "settled")) ||
    decide (status = some (JVal.str "done"))

/-- The options waitForAchDebitCompletion passes to pollUntil. -/
def achDebitOptions (maxWait : Nat) : PollOptions :=
  { maxWait := some maxWait
    pollInterval := some 10000
    timeoutMessage := some "ACH debit not completed in time" }

/-- waitForAchDebitCompletion (lines 95 to 114). -/
def waitForAchDebitCompletion (getStatusFn : Nat → Except String Obj)
    (maxWait : Nat := 300000) : Except String Obj :=
  pollUntilE stringifyObj getStatusFn (fun r => Except.ok (achDebitTerminal r))
    (achDebitOptions maxWait)

/-- Terminal check of waitForOrderFill: status is filled, done or settled. -/
def orderFillTerminal (order : Obj) : Bool :=
  let status := lookupField order "status"
  decide (status = some (JVal.str "filled")) || decide (status = some (JVal.str "done")) ||
    decide (status = some (JVal.str "settled"))

/-- The options waitForOrderFill passes to pollUntil. -/
def orderFillOptions (maxWait : Nat) : PollOptions :=
  { maxWait := some maxWait
    pollInterval := some 2000
    timeoutMessage := some "Order not filled in time" }

/-- waitForOrderFill (lines 119 to 138). -/
def waitForOrderFill (getOrderFn : Nat → Except String Obj)
    (maxWait : Nat := 60000) : Except String Obj :=
  pollUntilE stringifyObj getOrderFn (fun order => Except.ok (orderFillTerminal order))
    (orderFillOptions maxWait)

/-- Terminal check of waitForTransactionConfirmation: status confirmed or
complete, or Number(transfer.confirmations || 0) at least minConfirmations. -/
def transferConfirmed (minConfirmations : Int) (transfer : Obj) : Bool :=
  let status := lookupField transfer "status"
  let confirmations :=
    match jor (lookupField transfer "confirmations") (some (JVal.num 0)) with
    | some v => jnumber v
    | none => none
  decide (status = some (JVal.str "confirmed")) || decide (status = some (JVal.str "complete")) ||
    (match confirmations with
     | some n => decide (minConfirmations ≤ n)
     | none => false)

/-- The options waitForTransactionConfirmation passes to pollUntil. -/
def transferConfirmationOptions (maxWait : Nat) : PollOptions :=
  { maxWait := some maxWait
    pollInterval := some 15000
    timeoutMessage := some ("Transaction not confirmed after " ++ toString maxWait ++ "ms") }

/-- waitForTransactionConfirmation (lines 143 to 169). -/
def waitForTransactionConfirmation (getTransferFn : Nat → Except String Obj)
    (minConfirmations : Int := 1) (maxWait : Nat := 600000) : Except String Obj :=
  pollUntilE stringifyObj getTransferFn
    (fun transfer => Except.ok (transferConfirmed minConfirmations transfer))
    (transferConfirmationOptions maxWait)

/-- Terminal check of waitForLightningInvoicePaid: status paid, settled or
completed. -/
def lightningInvoiceTerminal (invoice : Obj) : Bool :=
  let status := lookupField invoice "status"
  decide (status = some (JVal.str "paid")) || decide (status = some (JVal.str "settled")) ||
    decide (status = some (JVal.str "completed"))

/-- The options waitForLightningInvoicePaid passes to pollUntil. -/
def lightningInvoiceOptions (maxWait : Nat) : PollOptions :=
  { maxWait := some maxWait
    pollInterval := some 3000
    timeoutMessage := some "Lightning invoice not paid in time" }

/-- waitForLightningInvoicePaid (lines 174 to 193). -/
def waitForLightningInvoicePaid (getInvoiceFn : Nat → Except String Obj)
    (maxWait : Nat := 120000) : Except String Obj :=
  pollUntilE stringifyObj getInvoiceFn (fun invoice => Except.ok (lightningInvoiceTerminal invoice))
    (lightningInvoiceOptions maxWait)

/-- Terminal check of waitForKycApproval: the state, read from status with
fallback to verificationStatus, is approved, verified or complete. -/
def kycApprovalTerminal (identity : Obj) : Bool :=
  let status := jor (lookupField identity "status") (lookupField identity "verificationStatus")
  decide (status = some (JVal.str "approved")) || decide (status = some (JVal.str "verified")) ||
    decide (status = some (JVal.str "complete"))

/-- The options waitForKycApproval passes to pollUntil. -/
def kycApprovalOptions (maxWait : Nat) : PollOptions :=
  { maxWait := some maxWait
    pollInterval := some 10000
    timeoutMessage := some "KYC identity not approved in time" }

/-- waitForKycApproval (lines 198 to 217). -/
def waitForKycApproval (getIdentityFn : Nat → Except String Obj)
    (maxWait : Nat := 300000) : Except String Obj :=
  pollUntilE stringifyObj getIdentityFn (fun identity => Except.ok (kycApprovalTerminal identity))
    (kycApprovalOptions maxWait)

/-- The options object of retry; none models an omitted field. -/
structure RetryOptions where
  maxAttempts : Option Nat := none
  initialDelay : Option Nat := none
  maxDelay : Option Nat := none
  backoffFactor : Option Nat := none
deriving DecidableEq

/-- Outcome of one retry run. ok carries the returned value, the number of
calls made and the backoff delays slept; failed carries the attempt budget,
the message of the last underlying failure and the delays slept. -/
inductive RetryOutcome (α : Type) where
  | ok : α → Nat → List Nat → RetryOutcome α
  | failed : Nat → String → List Nat → RetryOutcome α
deriving DecidableEq

/-- Calls made during a retry run. -/
def retryCalls {α : Type} : RetryOutcome α → Nat
  | RetryOutcome.ok _ c _ => c
  | RetryOutcome.failed c _ _ => c

/-- Backoff delays slept during a retry run, in order. -/
def retryDelays {α : Type} : RetryOutcome α → List Nat
  | RetryOutcome.ok _ _ ds => ds
  | RetryOutcome.failed _ _ ds => ds

/-- The capped exponential backoff of retry for the 1-based attempt number:
min(initialDelay * backoffFactor ^ (attempt - 1), maxDelay). -/
def backoffDelay (initialDelay maxDelay backoffFactor attempt : Nat) : Nat :=
  min (initialDelay * backoffFactor ^ (attempt - 1)) maxDelay

/-- The for-loop of retry (lines 357 to 379). attempt is the 1-based attempt
number about to run, remaining the number of further attempts allowed after
it, delays the backoff delays slept so far. On the last attempt a failure
breaks out of the loop carrying the last error message. -/
def retryLoop {α : Type} (fn : Nat → Except String α) (initialDelay maxDelay backoffFactor : Nat) :
    Nat → Nat → List Nat → RetryOutcome α
  | attempt, 0, delays =>
    match fn attempt with
    | Except.ok r => RetryOutcome.ok r attempt delays
    | Except.error e => RetryOutcome.failed attempt e delays
  | attempt, remaining + 1, delays =>
    match fn attempt with
    | Except.ok r => RetryOutcome.ok r attempt delays
    | Except.error _ =>
      retryLoop fn initialDelay maxDelay backoffFactor (attempt + 1) remaining
        (delays ++ [backoffDelay initialDelay maxDelay backoffFactor attempt])

/-- The retry helper of test-utils.ts, lines 341 to 384; fn is indexed by the
1-based attempt number. -/
def retry {α : Type} (fn : Nat → Except String α) (options : RetryOptions := {}) : RetryOutcome α :=
  let maxAttempts := orDefault options.maxAttempts 3
  let initialDelay := orDefault options.initialDelay 1000
  let maxDelay := orDefault options.maxDelay 10000
  let backoffFactor := orDefault options.backoffFactor 2
  retryLoop fn initialDelay maxDelay backoffFactor 1 (maxAttempts - 1) []

/-- The message of the Error thrown when retry exhausts its budget. -/
def retryFailureMessage (maxAttempts : Nat) (lastErrorMessage : String) : String :=
  "Failed after " ++ toString maxAttempts ++ " attempts: " ++ lastErrorMessage

/-- True when the second list starts the first: an anchored occurrence. -/
def leadsChars : List Char → List Char → Bool
  | [], _ => true
  | _ :: _, [] => false
  | a :: s, b :: t => a == b && leadsChars s t

/-- True when the first list occurs contiguously inside the second. -/
def occursChars (s : List Char) : List Char → Bool
  | [] => leadsChars s []
  | b :: t => leadsChars s (b :: t) || occursChars s t

/-- True when sub occurs contiguously inside big. -/
def strHas (big sub : String) : Bool :=
  occursChars sub.data big.data

/-- True when the attempt with the given 0-based index does not return from
the loop: the accessor fails, or the condition rejects the result or throws. -/
def stepMiss {α : Type} (fn : Nat → Except String α) (cond : α → Except String Bool)
    (i : Nat) : Bool :=
  match fn i with
  | Except.error _ => true
  | Except.ok r =>
    match cond r with
    | Except.ok true => false
    | Except.ok false => true
    | Except.error _ => true

/-- A result still pending, as observed by a poll that never completes; it
has no confirmations field. -/
def pendingObj : Obj := [("status", JVal.str "pending")]

/-- A condition that always throws. -/
def throwingCond : Obj → Except String Bool := fun _ => Except.error "predicate threw"

/-- Options admitting exactly three attempts. -/
def shortPollOptions : PollOptions := { maxWait := some 3, pollInterval := some 1 }

/-- An accessor that always fails. -/
def alwaysFails : Nat → Except String Obj := fun _ => Except.error "network error"

/-- A condition that always rejects. -/
def alwaysFalseCond : Obj → Except String Bool := fun _ => Except.ok false

/-- Options with a custom timeout message and maxWait below pollInterval. -/
def boomOptions : PollOptions :=
  { maxWait := some 7, pollInterval := some 10, timeoutMessage := some "boom" }

/-- An accessor failing on its first two attempts, then returning a done
status. -/
def flakyAccessor : Nat → Except String Obj :=
  fun i => if i < 2 then Except.error "not found yet" else Except.ok [("status", JVal.str "done")]

/-- A verified bank account. -/
def verifiedAccount : Obj := [("status", JVal.str "verified")]

/-- Two verified bank accounts distinguishable by owner. -/
def verifiedAccountA : Obj := [("status", JVal.str "verified"), ("owner", JVal.str "A")]

/-- The second distinguishable verified bank account. -/
def verifiedAccountB : Obj := [("status", JVal.str "verified"), ("owner", JVal.str "B")]

/-- An order still open. -/
def openOrder : Obj := [("status", JVal.str "open")]

/-- A filled order, the third observation of the order-fill scenario. -/
def filledOrder : Obj := [("status", JVal.str "filled"), ("filledQuantity", JVal.str "0.001")]

/-- The accessor of the order-fill scenario: open, open, then filled. -/
def orderAccessor : Nat → Except String Obj :=
  fun i => if i < 2 then Except.ok openOrder else Except.ok filledOrder

example : pollUntil (fun _ => (Except.error "e" : Except String Obj))
    (fun _ => Except.ok false) { maxWait := some 500, pollInterval := some 1000 } =
    PollOutcome.timeout 1 none := by decide

example : pollUntil (fun _ => (Except.ok ([] : Obj)))
    (fun _ => Except.ok true) {} = PollOutcome.ok [] 1 := by decide

example : retry (fun _ => (Except.error "boom" : Except String Obj)) {} =
    RetryOutcome.failed 3 "boom" [1000, 2000] := by decide

example : retry (fun _ => (Except.error "boom" : Except String Obj)) { maxAttempts := some 7 } =
    RetryOutcome.failed 7 "boom" [1000, 2000, 4000, 8000, 10000, 10000] := by decide

theorem leadsChars_append (s r : List Char) : leadsChars s (s ++ r) = true := by
  induction s with
  | nil => rfl
  | cons a t ih => simp [leadsChars, ih]

theorem occursChars_here (s r : List Char) : occursChars s (s ++ r) = true := by
  cases s with
  | nil =>
    cases r with
    | nil => rfl
    | cons b t => simp [occursChars, leadsChars]
  | cons a t => simp [occursChars, leadsChars, leadsChars_append]

theorem occursChars_append (s l r : List Char) : occursChars s (l ++ (s ++ r)) = true := by
  induction l with
  | nil => simpa using occursChars_here s r
  | cons b t ih => simp [occursChars, ih]

theorem strHas_decomp {big sub : String} (l r : List Char)
    (h : big.data = l ++ (sub.data ++ r)) : strHas big sub = true := by
  unfold strHas
  rw [h]
  exact occursChars_append sub.data l r

theorem occursChars_nil (s : List Char) : occursChars s [] = leadsChars s [] := rfl

theorem leadsChars_extend (s : List Char) :
    ∀ t r : List Char, leadsChars s t = true → leadsChars s (t ++ r) = true := by
  induction s with
  | nil => intro t r _; rfl
  | cons a s2 ih =>
    intro t r h
    cases t with
    | nil => simp [leadsChars] at h
    | cons b t2 =>
      simp [leadsChars] at h ⊢
      exact ⟨h.1, ih t2 r h.2⟩

theorem occursChars_extend_right (s : List Char) :
    ∀ t r : List Char, occursChars s t = true → occursChars s (t ++ r) = true := by
  intro t
  induction t with
  | nil =>
    intro r h
    cases s with
    | nil =>
      cases r with
      | nil => rfl
      | cons b t2 => simp [occursChars, leadsChars]
    | cons a s2 => simp [occursChars, leadsChars] at h
  | cons b t2 ih =>
    intro r h
    simp only [occursChars, List.cons_append, Bool.or_eq_true] at h ⊢
    cases h with
    | inl h1 =>
      have := leadsChars_extend s (b :: t2) r h1
      simpa using Or.inl this
    | inr h2 => exact Or.inr (ih r h2)

theorem occursChars_extend_left (s a : List Char) :
    ∀ t : List Char, occursChars s t = true → occursChars s (a ++ t) = true := by
  induction a with
  | nil => intro t h; simpa
  | cons b a2 ih =>
    intro t h
    simp only [List.cons_append, occursChars, Bool.or_eq_true]
    exact Or.inr (ih t h)

theorem strHas_self (s : String) : strHas s s = true := by
  have := occursChars_here s.data []
  simpa [strHas] using this

theorem strHas_extend_right {b sub : String} (c : String) (h : strHas b sub = true) :
    strHas (b ++ c) sub = true := by
  unfold strHas at h ⊢
  rw [String.data_append]
  exact occursChars_extend_right sub.data b.data c.data h

theorem strHas_extend_left {b sub : String} (a : String) (h : strHas b sub = true) :
    strHas (a ++ b) sub = true := by
  unfold strHas at h ⊢
  rw [String.data_append]
  exact occursChars_extend_left sub.data a.data b.data h

theorem stepMiss_of_isErr {α : Type} (fn : Nat → Except String α)
    (cond : α → Except String Bool) (i : Nat) (h : isErr (fn i) = true) :
    stepMiss fn cond i = true := by
  unfold stepMiss
  cases hf : fn i with
  | error e => rfl
  | ok r => rw [hf] at h; simp [isErr] at h

theorem pollLoop_first_hit {α : Type} (fn : Nat → Except String α)
    (cond : α → Except String Bool) (r : α) :
    ∀ N : Nat, ∀ fuel a : Nat, ∀ last : Option α,
      (∀ i, i < N → stepMiss fn cond (a + i) = true) →
      fn (a + N) = Except.ok r → cond r = Except.ok true → N < fuel →
      pollLoop fn cond fuel a last = PollOutcome.ok r (a + N + 1) := by
  intro N
  induction N with
  | zero =>
    intro fuel a last _hmiss hok hcond hfuel
    cases fuel with
    | zero => omega
    | succ f =>
      have hok2 : fn a = Except.ok r := hok
      simp [pollLoop, hok2, hcond]
  | succ N ih =>
    intro fuel a last hmiss hok hcond hfuel
    cases fuel with
    | zero => omega
    | succ f =>
      have hm0 : stepMiss fn cond a = true := by
        have := hmiss 0 (by omega)
        simpa using this
      have hmiss2 : ∀ i, i < N → stepMiss fn cond (a + 1 + i) = true := by
        intro i hi
        have := hmiss (i + 1) (by omega)
        rwa [show a + (i + 1) = a + 1 + i by omega] at this
      have hok2 : fn (a + 1 + N) = Except.ok r := by
        rwa [show a + 1 + N = a + (N + 1) by omega]
      cases hf : fn a with
      | error e =>
        have : pollLoop fn cond (f + 1) a last = pollLoop fn cond f (a + 1) last := by
          simp [pollLoop, hf]
        rw [this, ih f (a + 1) last hmiss2 hok2 hcond (by omega)]
        congr 1
        omega
      | ok v =>
        cases hc : cond v with
        | ok b =>
          cases b with
          | true =>
            simp [stepMiss, hf, hc] at hm0
          | false =>
            have : pollLoop fn cond (f + 1) a last = pollLoop fn cond f (a + 1) (some v) := by
              simp [pollLoop, hf, hc]
            rw [this, ih f (a + 1) (some v) hmiss2 hok2 hcond (by omega)]
            congr 1
            omega
        | error e =>
          have : pollLoop fn cond (f + 1) a last = pollLoop fn cond f (a + 1) (some v) := by
            simp [pollLoop, hf, hc]
          rw [this, ih f (a + 1) (some v) hmiss2 hok2 hcond (by omega)]
          congr 1
          omega

theorem orDefault_pos (v : Option Nat) (d : Nat) (hd : 0 < d) : 0 < orDefault v d := by
  cases v with
  | none => simpa [orDefault]
  | some x =>
    by_cases hx : x = 0 <;> simp [orDefault, hx] <;> omega

theorem lt_ceilDiv_of_mul_lt {N w p : Nat} (hp : 0 < p) (h : N * p < w) :
    N < ceilDiv w p := by
  have : N + 1 ≤ (w + p - 1) / p := by
    rw [Nat.le_div_iff_mul_le hp, Nat.succ_mul]
    omega
  unfold ceilDiv
  omega

theorem pollUntil_first_hit {α : Type} (fn : Nat → Except String α)
    (cond : α → Except String Bool) (options : PollOptions) (N : Nat) (r : α)
    (hmiss : ∀ i, i < N → stepMiss fn cond i = true)
    (hok : fn N = Except.ok r) (hcond : cond r = Except.ok true)
    (htime : N * orDefault options.pollInterval 1000 < orDefault options.maxWait 30000) :
    pollUntil fn cond options = PollOutcome.ok r (N + 1) := by
  have hp : 0 < orDefault options.pollInterval 1000 :=
    orDefault_pos _ _ (by omega)
  have hfuel : N < ceilDiv (orDefault options.maxWait 30000) (orDefault options.pollInterval 1000) :=
    lt_ceilDiv_of_mul_lt hp htime
  have := pollLoop_first_hit fn cond r N
    (ceilDiv (orDefault options.maxWait 30000) (orDefault options.pollInterval 1000)) 0 none
    (by intro i hi; simpa using hmiss i hi) (by simpa using hok) hcond hfuel
  simpa [pollUntil] using this

theorem pollCalls_loop_ge {α : Type} (fn : Nat → Except String α)
    (cond : α → Except String Bool) :
    ∀ fuel a : Nat, ∀ last : Option α, a ≤ pollCalls (pollLoop fn cond fuel a last) := by
  intro fuel
  induction fuel with
  | zero => intro a last; simp [pollLoop, pollCalls]
  | succ f ih =>
    intro a last
    cases hf : fn a with
    | error e =>
      have := ih (a + 1) last
      simp only [pollLoop, hf]
      omega
    | ok v =>
      cases hc : cond v with
      | ok b =>
        cases b with
        | true => simp [pollLoop, hf, hc, pollCalls]
        | false =>
          have := ih (a + 1) (some v)
          simp only [pollLoop, hf, hc]
          omega
      | error e =>
        have := ih (a + 1) (some v)
        simp only [pollLoop, hf, hc]
        omega

theorem pollCalls_loop_pos {α : Type} (fn : Nat → Except String α)
    (cond : α → Except String Bool) (fuel a : Nat) (last : Option α) (hfuel : 0 < fuel) :
    a + 1 ≤ pollCalls (pollLoop fn cond fuel a last) := by
  cases fuel with
  | zero => omega
  | succ f =>
    cases hf : fn a with
    | error e =>
      have := pollCalls_loop_ge fn cond f (a + 1) last
      simp only [pollLoop, hf]
      omega
    | ok v =>
      cases hc : cond v with
      | ok b =>
        cases b with
        | true => simp [pollLoop, hf, hc, pollCalls]
        | false =>
          have := pollCalls_loop_ge fn cond f (a + 1) (some v)
          simp only [pollLoop, hf, hc]
          omega
      | error e =>
        have := pollCalls_loop_ge fn cond f (a + 1) (some v)
        simp only [pollLoop, hf, hc]
        omega

theorem ceilDiv_pos {w p : Nat} (hw : 0 < w) (hp : 0 < p) : 0 < ceilDiv w p := by
  have h : 0 * p < w := by omega
  exact lt_ceilDiv_of_mul_lt hp h

theorem ceilDiv_eq_one {w p : Nat} (hw : 0 < w) (hwp : w ≤ p) : ceilDiv w p = 1 := by
  have hp : 0 < p := by omega
  have h1 : 0 < ceilDiv w p := ceilDiv_pos hw hp
  have h2 : ceilDiv w p < 2 := by
    unfold ceilDiv
    rw [Nat.div_lt_iff_lt_mul hp]
    omega
  omega

theorem pollLoop_cond_always_throws {α : Type} (fn : Nat → Except String α)
    (cond : α → Except String Bool) (g : Nat → α)
    (hfn : ∀ i, fn i = Except.ok (g i)) (hcond : ∀ i, isErr (cond (g i)) = true) :
    ∀ n a : Nat, ∀ last : Option α,
      pollLoop fn cond (n + 1) a last = PollOutcome.timeout (a + n + 1) (some (g (a + n))) := by
  intro n
  induction n with
  | zero =>
    intro a last
    cases hc : cond (g a) with
    | ok b => have := hcond a; rw [hc] at this; simp [isErr] at this
    | error e => simp [pollLoop, hfn a, hc]
  | succ n ih =>
    intro a last
    cases hc : cond (g a) with
    | ok b => have := hcond a; rw [hc] at this; simp [isErr] at this
    | error e =>
      have hstep : pollLoop fn cond (n + 1 + 1) a last =
          pollLoop fn cond (n + 1) (a + 1) (some (g a)) := by
        simp [pollLoop, hfn a, hc]
      rw [hstep, ih (a + 1) (some (g a))]
      have h1 : a + 1 + n + 1 = a + (n + 1) + 1 := by omega
      have h2 : a + 1 + n = a + (n + 1) := by omega
      rw [h1, h2]

theorem retryCalls_loop_ge {α : Type} (fn : Nat → Except String α)
    (initialDelay maxDelay backoffFactor : Nat) :
    ∀ remaining a : Nat, ∀ delays : List Nat,
      a ≤ retryCalls (retryLoop fn initialDelay maxDelay backoffFactor a remaining delays) := by
  intro remaining
  induction remaining with
  | zero =>
    intro a delays
    cases hf : fn a <;> simp [retryLoop, hf, retryCalls]
  | succ rem ih =>
    intro a delays
    cases hf : fn a with
    | ok r => simp [retryLoop, hf, retryCalls]
    | error e =>
      have := ih (a + 1) (delays ++ [backoffDelay initialDelay maxDelay backoffFactor a])
      simp only [retryLoop, hf]
      omega

theorem retryCalls_loop_le {α : Type} (fn : Nat → Except String α)
    (initialDelay maxDelay backoffFactor : Nat) :
    ∀ remaining a : Nat, ∀ delays : List Nat,
      retryCalls (retryLoop fn initialDelay maxDelay backoffFactor a remaining delays) ≤
        a + remaining := by
  intro remaining
  induction remaining with
  | zero =>
    intro a delays
    cases hf : fn a <;> simp [retryLoop, hf, retryCalls]
  | succ rem ih =>
    intro a delays
    cases hf : fn a with
    | ok r => simp [retryLoop, hf, retryCalls]
    | error e =>
      have := ih (a + 1) (delays ++ [backoffDelay initialDelay maxDelay backoffFactor a])
      simp only [retryLoop, hf]
      omega

theorem retryLoop_all_fail {α : Type} (fn : Nat → Except String α) (errs : Nat → String)
    (hf : ∀ i, fn i = Except.error (errs i)) (initialDelay maxDelay backoffFactor : Nat) :
    ∀ remaining a : Nat, ∀ delays : List Nat,
      retryLoop fn initialDelay maxDelay backoffFactor a remaining delays =
        RetryOutcome.failed (a + remaining) (errs (a + remaining))
          (delays ++ (List.range remaining).map
            (fun j => backoffDelay initialDelay maxDelay backoffFactor (a + j))) := by
  intro remaining
  induction remaining with
  | zero =>
    intro a delays
    simp [retryLoop, hf a]
  | succ rem ih =>
    intro a delays
    have hstep : retryLoop fn initialDelay maxDelay backoffFactor a (rem + 1) delays =
        retryLoop fn initialDelay maxDelay backoffFactor (a + 1) rem
          (delays ++ [backoffDelay initialDelay maxDelay backoffFactor a]) := by
      simp [retryLoop, hf a]
    rw [hstep, ih (a + 1)]
    have hn : a + 1 + rem = a + (rem + 1) := by omega
    rw [hn]
    congr 1
    have hmapeq : (List.range rem).map
        (fun j => backoffDelay initialDelay maxDelay backoffFactor (a + 1 + j)) =
        (List.range rem).map
          ((fun j => backoffDelay initialDelay maxDelay backoffFactor (a + j)) ∘ Nat.succ) := by
      apply List.map_congr_left
      intro j _
      have hj : a + 1 + j = a + (j + 1) := by omega
      simp [Function.comp, Nat.succ_eq_add_one, hj]
    rw [List.range_succ_eq_map, List.map_cons, List.map_map, ← hmapeq, List.append_assoc]
    simp

theorem pollUntilE_first_hit {α : Type} (stringify : α → String) (fn : Nat → Except String α)
    (cond : α → Except String Bool) (options : PollOptions) (N : Nat) (r : α)
    (hmiss : ∀ i, i < N → stepMiss fn cond i = true)
    (hok : fn N = Except.ok r) (hcond : cond r = Except.ok true)
    (htime : N * orDefault options.pollInterval 1000 < orDefault options.maxWait 30000) :
    pollUntilE stringify fn cond options = Except.ok r := by
  unfold pollUntilE
  rw [pollUntil_first_hit fn cond options N r hmiss hok hcond htime]

/-- Claim C1 counterexample: the source evaluates condition(result) inside
the same try block as the accessor call, so a throwing condition is caught
and polling continues. With a condition that always throws and a budget of
three attempts, all three attempts run and the run ends with the deadline
timeout carrying the last observed result, instead of propagating the
condition error and aborting after the first attempt. -/
theorem thrown_condition_not_propagated :
    pollUntil (fun _ => Except.ok pendingObj) throwingCond shortPollOptions =
      PollOutcome.timeout 3 (some pendingObj) ∧
    pollCalls (pollUntil (fun _ => Except.ok pendingObj) throwingCond shortPollOptions) = 3 :=
  ⟨rfl, rfl⟩

/-- Claim C1 amended: a throwing condition does not abort the loop and is
not propagated; it is caught like an accessor failure, after lastResult was
updated, so a run whose condition always throws performs every admitted
attempt and ends with the deadline timeout recording the last observed
result. -/
theorem thrown_condition_swallowed {α : Type} (fn : Nat → Except String α)
    (g : Nat → α) (cond : α → Except String Bool) (options : PollOptions)
    (hfn : ∀ i, fn i = Except.ok (g i)) (hcond : ∀ i, isErr (cond (g i)) = true) :
    pollUntil fn cond options =
      PollOutcome.timeout
        (ceilDiv (orDefault options.maxWait 30000) (orDefault options.pollInterval 1000))
        (some (g (ceilDiv (orDefault options.maxWait 30000)
          (orDefault options.pollInterval 1000) - 1))) := by
  have hw : 0 < orDefault options.maxWait 30000 := orDefault_pos _ _ (by omega)
  have hp : 0 < orDefault options.pollInterval 1000 := orDefault_pos _ _ (by omega)
  have hfuel : 0 < ceilDiv (orDefault options.maxWait 30000)
      (orDefault options.pollInterval 1000) := ceilDiv_pos hw hp
  obtain ⟨n, hn⟩ : ∃ n, ceilDiv (orDefault options.maxWait 30000)
      (orDefault options.pollInterval 1000) = n + 1 :=
    ⟨ceilDiv (orDefault options.maxWait 30000) (orDefault options.pollInterval 1000) - 1,
      by omega⟩
  have hstart : pollUntil fn cond options =
      pollLoop fn cond (ceilDiv (orDefault options.maxWait 30000)
        (orDefault options.pollInterval 1000)) 0 none := rfl
  rw [hstart, hn, pollLoop_cond_always_throws fn cond g hfn hcond n 0 none]
  simp

/-- Witness for the amended claim C1 at a concrete input: two admitted
attempts with an always-throwing condition end in timeout with the pending
result recorded. -/
theorem thrown_condition_swallowed_witness :
    pollUntil (fun _ => Except.ok pendingObj) throwingCond
      { maxWait := some 2, pollInterval := some 1 } =
      PollOutcome.timeout 2 (some pendingObj) :=
  thrown_condition_swallowed (fun _ => Except.ok pendingObj) (fun _ => pendingObj)
    throwingCond { maxWait := some 2, pollInterval := some 1 } (fun _ => rfl) (fun _ => rfl)

/-- Claim C2 counterexample: with pollInterval 1000 and maxWait 500 the loop
guard passes once (elapsed 0 is below 500), so the accessor is invoked once,
not zero times as claimed. -/
theorem small_maxWait_not_zero_attempts :
    pollUntil alwaysFails alwaysFalseCond { maxWait := some 500, pollInterval := some 1000 } =
      PollOutcome.timeout 1 none ∧
    pollCalls (pollUntil alwaysFails alwaysFalseCond
      { maxWait := some 500, pollInterval := some 1000 }) ≠ 0 :=
  ⟨rfl, by decide⟩

/-- Claim C2 amended: for 0 &lt; maxWait &lt; pollInterval, exactly one accessor
invocation occurs; pollUntil returns its result if the condition accepts it,
and otherwise (in particular when the accessor fails) it fails with the
deadline timeout reporting one attempt. -/
theorem small_maxWait_single_attempt {α : Type} (fn : Nat → Except String α)
    (cond : α → Except String Bool) (w p : Nat) (m : Option String)
    (hw : 0 < w) (hwp : w < p) :
    pollCalls (pollUntil fn cond
      { maxWait := some w, pollInterval := some p, timeoutMessage := m }) = 1 ∧
    (∀ r, fn 0 = Except.ok r → cond r = Except.ok true →
      pollUntil fn cond { maxWait := some w, pollInterval := some p, timeoutMessage := m } =
        PollOutcome.ok r 1) ∧
    (isErr (fn 0) = true →
      pollUntil fn cond { maxWait := some w, pollInterval := some p, timeoutMessage := m } =
        PollOutcome.timeout 1 none) := by
  have hwe : orDefault (some w) 30000 = w := by
    simp only [orDefault, if_neg (show ¬ w = 0 by omega)]
  have hpe : orDefault (some p) 1000 = p := by
    simp only [orDefault, if_neg (show ¬ p = 0 by omega)]
  have hone : ceilDiv (orDefault (some w) 30000) (orDefault (some p) 1000) = 1 := by
    rw [hwe, hpe]
    exact ceilDiv_eq_one hw (by omega)
  have hrun : pollUntil fn cond
      { maxWait := some w, pollInterval := some p, timeoutMessage := m } =
      pollLoop fn cond 1 0 none := by
    have hstart : pollUntil fn cond
        { maxWait := some w, pollInterval := some p, timeoutMessage := m } =
        pollLoop fn cond (ceilDiv (orDefault (some w) 30000) (orDefault (some p) 1000))
          0 none := rfl
    rw [hstart, hone]
  refine ⟨?_, ?_, ?_⟩
  · rw [hrun]
    cases hf : fn 0 with
    | error e => simp [pollLoop, hf, pollCalls]
    | ok v =>
      cases hc : cond v with
      | ok b => cases b <;> simp [pollLoop, hf, hc, pollCalls]
      | error e => simp [pollLoop, hf, hc, pollCalls]
  · intro r hok hcond
    rw [hrun]
    simp [pollLoop, hok, hcond]
  · intro herr
    rw [hrun]
    cases hf : fn 0 with
    | error e => simp [pollLoop, hf]
    | ok v => rw [hf] at herr; simp [isErr] at herr

/-- Witness for the amended claim C2 at a concrete input: maxWait 500 and
pollInterval 1000 yield exactly one accessor invocation. -/
theorem small_maxWait_single_attempt_witness :
    pollCalls (pollUntil alwaysFails alwaysFalseCond
      { maxWait := some 500, pollInterval := some 1000, timeoutMessage := none }) = 1 :=
  (small_maxWait_single_attempt alwaysFails alwaysFalseCond 500 1000 none
    (by decide) (by decide)).1

/-- Claim C3 counterexample: a run whose every attempt failed, under a
custom timeout message, throws exactly "boom\nLast result: undefined" — a
message that contains neither the text "no successful result" claimed for
the all-failures case, nor the elapsed bound 7, nor the attempt count 1. -/
theorem timeout_message_custom_counterexample :
    pollUntilE stringifyObj alwaysFails alwaysFalseCond boomOptions =
      Except.error "boom\nLast result: undefined" ∧
    strHas "boom\nLast result: undefined" "no successful result" = false ∧
    strHas "boom\nLast result: undefined" "7" = false ∧
    strHas "boom\nLast result: undefined" "1" = false := by
  refine ⟨rfl, ?_, ?_, ?_⟩ <;> decide

/-- Claim C3 amended: the thrown timeout message is the effective timeout
message (the caller-supplied one when given and non-empty, otherwise the
default) followed by a line holding the JSON snapshot of the last observed
result, or the text undefined when every attempt failed. The elapsed bound
and the attempt count appear in the message only through the default
message, and the all-failures case prints undefined rather than the text
"no successful result". -/
theorem timeout_message_content (fn : Nat → Except String Obj)
    (cond : Obj → Except String Bool) (options : PollOptions) (attempts : Nat)
    (last : Option Obj)
    (h : pollUntil fn cond options = PollOutcome.timeout attempts last) :
    pollUntilE stringifyObj fn cond options =
      Except.error (pollTimeoutMessage stringifyObj options attempts last) ∧
    strHas (pollTimeoutMessage stringifyObj options attempts last)
      (orDefaultStr options.timeoutMessage
        (defaultTimeoutMsg (orDefault options.maxWait 30000) attempts)) = true ∧
    (options.timeoutMessage = none →
      strHas (pollTimeoutMessage stringifyObj options attempts last)
        (toString (orDefault options.maxWait 30000)) = true ∧
      strHas (pollTimeoutMessage stringifyObj options attempts last)
        (toString attempts) = true) ∧
    (∀ r : Obj, last = some r →
      strHas (pollTimeoutMessage stringifyObj options attempts last) (stringifyObj r) = true) ∧
    (last = none →
      strHas (pollTimeoutMessage stringifyObj options attempts last) "undefined" = true) := by
  refine ⟨?_, ?_, ?_, ?_, ?_⟩
  · unfold pollUntilE
    rw [h]
  · unfold pollTimeoutMessage
    exact strHas_extend_right _ (strHas_extend_right _ (strHas_self _))
  · intro hnone
    unfold pollTimeoutMessage
    rw [hnone]
    simp only [orDefaultStr]
    unfold defaultTimeoutMsg
    constructor
    · exact strHas_extend_right _ (strHas_extend_right _ (strHas_extend_right _
        (strHas_extend_right _ (strHas_extend_right _
          (strHas_extend_left _ (strHas_self _))))))
    · exact strHas_extend_right _ (strHas_extend_right _ (strHas_extend_right _
        (strHas_extend_left _ (strHas_self _))))
  · intro r hr
    subst hr
    unfold pollTimeoutMessage lastResultText
    exact strHas_extend_left _ (strHas_self _)
  · intro hn
    subst hn
    unfold pollTimeoutMessage lastResultText
    exact strHas_extend_left _ (strHas_self _)

/-- Witness for the amended claim C3 at a concrete input: a two-attempt
timeout with last observed pending result yields a message containing its
JSON snapshot. -/
theorem timeout_message_content_witness :
    strHas (pollTimeoutMessage stringifyObj { maxWait := some 2, pollInterval := some 1 }
      2 (some pendingObj)) (stringifyObj pendingObj) = true :=
  (timeout_message_content (fun _ => Except.ok pendingObj) alwaysFalseCond
    { maxWait := some 2, pollInterval := some 1 } 2 (some pendingObj) rfl).2.2.2.1
    pendingObj rfl

/-- Claim C4 (confirmed): when the accessor fails on each of the first N
attempts and succeeds on attempt N+1 with a result the condition accepts,
while the elapsed time stays under the effective maxWait, pollUntil returns
that result after N+1 attempts; the earlier failures are suppressed and
never abort the loop or surface to the caller. -/
theorem accessor_failures_tolerated {α : Type} (fn : Nat → Except String α)
    (cond : α → Except String Bool) (options : PollOptions) (N : Nat) (r : α)
    (hfail : ∀ i, i < N → isErr (fn i) = true)
    (hok : fn N = Except.ok r) (hcond : cond r = Except.ok true)
    (htime : N * orDefault options.pollInterval 1000 < orDefault options.maxWait 30000) :
    pollUntil fn cond options = PollOutcome.ok r (N + 1) := by
  apply pollUntil_first_hit fn cond options N r ?_ hok hcond htime
  intro i hi
  exact stepMiss_of_isErr fn cond i (hfail i hi)

/-- Witness for claim C4 at a concrete input: two failures, then a done
status accepted by the ACH terminal check, returned on the third attempt. -/
theorem accessor_failures_tolerated_witness :
    pollUntil flakyAccessor (fun o => Except.ok (achDebitTerminal o)) {} =
      PollOutcome.ok [("status", JVal.str "done")] 3 :=
  accessor_failures_tolerated flakyAccessor (fun o => Except.ok (achDebitTerminal o)) {}
    2 [("status", JVal.str "done")] (by decide) rfl rfl (by decide)

/-- Claim C5 (confirmed): when the condition accepts the first observed
result, pollUntil returns that result after exactly one accessor invocation
and without ever sleeping. -/
theorem first_result_immediate_success {α : Type} (fn : Nat → Except String α)
    (cond : α → Except String Bool) (options : PollOptions) (r : α)
    (hok : fn 0 = Except.ok r) (hcond : cond r = Except.ok true) :
    pollUntil fn cond options = PollOutcome.ok r 1 ∧
    pollCalls (pollUntil fn cond options) = 1 ∧
    pollSleeps (pollUntil fn cond options) = 0 := by
  have hw : 0 < orDefault options.maxWait 30000 := orDefault_pos _ _ (by omega)
  have h := pollUntil_first_hit fn cond options 0 r
    (fun i hi => absurd hi (by omega)) hok hcond (by simpa using hw)
  refine ⟨h, ?_, ?_⟩ <;> rw [h] <;> rfl

/-- Witness for claim C5 at a concrete input: a first observation already
verified is returned after one attempt and zero sleeps. -/
theorem first_result_immediate_success_witness :
    pollUntil (fun _ => Except.ok verifiedAccount)
      (fun o => Except.ok (bankAccountTerminal o)) {} = PollOutcome.ok verifiedAccount 1 ∧
    pollCalls (pollUntil (fun _ => Except.ok verifiedAccount)
      (fun o => Except.ok (bankAccountTerminal o)) {}) = 1 ∧
    pollSleeps (pollUntil (fun _ => Except.ok verifiedAccount)
      (fun o => Except.ok (bankAccountTerminal o)) {}) = 0 :=
  first_result_immediate_success (fun _ => Except.ok verifiedAccount)
    (fun o => Except.ok (bankAccountTerminal o)) {} verifiedAccount rfl rfl

/-- Claim C6 (confirmed): retry makes at most the effective maxAttempts
calls; when every attempt fails, the delay slept after the k-th failing
attempt (1-based, before the last) is
min(initialDelay * backoffFactor ^ (k - 1), maxDelay); and with the default
configuration initialDelay 1000, backoffFactor 2, maxDelay 10000 the delay
sequence is 1000, 2000, 4000, 8000, 10000, 10000. -/
theorem retry_backoff_and_budget {α : Type} (fn : Nat → Except String α)
    (options : RetryOptions) :
    retryCalls (retry fn options) ≤ orDefault options.maxAttempts 3 ∧
    (∀ errs : Nat → String, (∀ i, fn i = Except.error (errs i)) →
      retry fn options =
        RetryOutcome.failed (orDefault options.maxAttempts 3)
          (errs (orDefault options.maxAttempts 3))
          ((List.range (orDefault options.maxAttempts 3 - 1)).map
            (fun j => backoffDelay (orDefault options.initialDelay 1000)
              (orDefault options.maxDelay 10000) (orDefault options.backoffFactor 2)
              (j + 1)))) ∧
    (List.range 6).map (fun j => backoffDelay 1000 10000 2 (j + 1)) =
      [1000, 2000, 4000, 8000, 10000, 10000] := by
  have hma : 0 < orDefault options.maxAttempts 3 := orDefault_pos _ _ (by omega)
  have hstart : retry fn options = retryLoop fn (orDefault options.initialDelay 1000)
      (orDefault options.maxDelay 10000) (orDefault options.backoffFactor 2)
      1 (orDefault options.maxAttempts 3 - 1) [] := rfl
  refine ⟨?_, ?_, ?_⟩
  · have hle := retryCalls_loop_le fn (orDefault options.initialDelay 1000)
      (orDefault options.maxDelay 10000) (orDefault options.backoffFactor 2)
      (orDefault options.maxAttempts 3 - 1) 1 []
    rw [hstart]
    omega
  · intro errs herrs
    rw [hstart, retryLoop_all_fail fn errs herrs
      (orDefault options.initialDelay 1000) (orDefault options.maxDelay 10000)
      (orDefault options.backoffFactor 2) (orDefault options.maxAttempts 3 - 1) 1 []]
    have h1 : 1 + (orDefault options.maxAttempts 3 - 1) = orDefault options.maxAttempts 3 := by
      omega
    rw [h1]
    have hlist : ([] : List Nat) ++ (List.range (orDefault options.maxAttempts 3 - 1)).map
        (fun j => backoffDelay (orDefault options.initialDelay 1000)
          (orDefault options.maxDelay 10000) (orDefault options.backoffFactor 2) (1 + j)) =
        (List.range (orDefault options.maxAttempts 3 - 1)).map
          (fun j => backoffDelay (orDefault options.initialDelay 1000)
            (orDefault options.maxDelay 10000) (orDefault options.backoffFactor 2) (j + 1)) := by
      rw [List.nil_append]
      apply List.map_congr_left
      intro j _
      rw [show 1 + j = j + 1 by omega]
    rw [hlist]
  · decide

/-- Witness for claim C6 at a concrete input: seven all-failing attempts
under the default delays sleep 1000, 2000, 4000, 8000, 10000, 10000. -/
theorem retry_backoff_and_budget_witness :
    retry (fun _ => (Except.error "boom" : Except String Obj)) { maxAttempts := some 7 } =
      RetryOutcome.failed 7 "boom" [1000, 2000, 4000, 8000, 10000, 10000] :=
  (retry_backoff_and_budget (fun _ => (Except.error "boom" : Except String Obj))
    { maxAttempts := some 7 }).2.1 (fun _ => "boom") (fun _ => rfl)

/-- Claim C7 (confirmed): each domain wrapper fixes exactly the terminal
states and timing of the spec table: bank verification accepts verified or
approved at default 120000ms / 5000ms; ACH accepts completed, settled or
done at 300000 / 10000; order fill accepts filled, done or settled at
60000 / 2000; blockchain confirmation accepts confirmed, complete, or
confirmations at least the threshold (default 1), at 600000 / 15000;
Lightning accepts paid, settled or completed at 120000 / 3000; KYC accepts
approved, verified or complete at 300000 / 10000. -/
theorem wrapper_terminal_states_and_timing :
    (∀ s : String, bankAccountTerminal [("status", JVal.str s)] = true ↔
      (s = "verified" ∨ s = "approved")) ∧
    (∀ bid : String, ∀ w : Nat, (bankVerificationOptions bid w).pollInterval = some 5000) ∧
    (∀ fn : Nat → Except String Obj, ∀ bid : String,
      waitForBankAccountVerification fn bid = waitForBankAccountVerification fn bid 120000) ∧
    (∀ s : String, achDebitTerminal [("status", JVal.str s)] = true ↔
      (s = "completed" ∨ s = "settled" ∨ s = "done")) ∧
    (∀ w : Nat, (achDebitOptions w).pollInterval = some 10000) ∧
    (∀ fn : Nat → Except String Obj,
      waitForAchDebitCompletion fn = waitForAchDebitCompletion fn 300000) ∧
    (∀ s : String, orderFillTerminal [("status", JVal.str s)] = true ↔
      (s = "filled" ∨ s = "done" ∨ s = "settled")) ∧
    (∀ w : Nat, (orderFillOptions w).pollInterval = some 2000) ∧
    (∀ fn : Nat → Except String Obj, waitForOrderFill fn = waitForOrderFill fn 60000) ∧
    (∀ s : String, ∀ c minC : Int,
      transferConfirmed minC [("status", JVal.str s), ("confirmations", JVal.num c)] = true ↔
      (s = "confirmed" ∨ s = "complete" ∨ minC ≤ c)) ∧
    (∀ w : Nat, (transferConfirmationOptions w).pollInterval = some 15000) ∧
    (∀ fn : Nat → Except String Obj,
      waitForTransactionConfirmation fn = waitForTransactionConfirmation fn 1 600000) ∧
    (∀ s : String, lightningInvoiceTerminal [("status", JVal.str s)] = true ↔
      (s = "paid" ∨ s = "settled" ∨ s = "completed")) ∧
    (∀ w : Nat, (lightningInvoiceOptions w).pollInterval = some 3000) ∧
    (∀ fn : Nat → Except String Obj,
      waitForLightningInvoicePaid fn = waitForLightningInvoicePaid fn 120000) ∧
    (∀ s : String, kycApprovalTerminal [("status", JVal.str s)] = true ↔
      (s = "approved" ∨ s = "verified" ∨ s = "complete")) ∧
    (∀ w : Nat, (kycApprovalOptions w).pollInterval = some 10000) ∧
    (∀ fn : Nat → Except String Obj, waitForKycApproval fn = waitForKycApproval fn 300000) := by
  refine ⟨?_, fun bid w => rfl, fun fn bid => rfl, ?_, fun w => rfl, fun fn => rfl,
    ?_, fun w => rfl, fun fn => rfl, ?_, fun w => rfl, fun fn => rfl,
    ?_, fun w => rfl, fun fn => rfl, ?_, fun w => rfl, fun fn => rfl⟩
  · intro s
    simp [bankAccountTerminal, lookupField, jor, jtruthy]
  · intro s
    simp [achDebitTerminal, lookupField, or_assoc]
  · intro s
    simp [orderFillTerminal, lookupField, or_assoc]
  · intro s c minC
    by_cases hc : c = 0
    · subst hc
      simp [transferConfirmed, lookupField, jor, jtruthy, jnumber, or_assoc]
    · simp [transferConfirmed, lookupField, jor, jtruthy, jnumber, hc, or_assoc]
  · intro s
    simp [lightningInvoiceTerminal, lookupField, or_assoc]
  · intro s
    by_cases hs : s = ""
    · subst hs
      simp [kycApprovalTerminal, lookupField, jor, jtruthy]
    · simp [kycApprovalTerminal, lookupField, jor, jtruthy, hs, or_assoc]

/-- Claim C8 counterexample: waitForBankAccountVerification has return type
Promise of void in the source — it awaits pollUntil and discards the
result, so it cannot resolve with the first satisfying Result: two runs
whose first satisfying observations differ both resolve with the empty
value. -/
theorem bank_wrapper_discards_result :
    waitForBankAccountVerification (fun _ => Except.ok verifiedAccountA) "acct" 120000 =
      Except.ok () ∧
    waitForBankAccountVerification (fun _ => Except.ok verifiedAccountB) "acct" 120000 =
      Except.ok () ∧
    verifiedAccountA ≠ verifiedAccountB ∧
    bankAccountTerminal verifiedAccountA = true ∧
    bankAccountTerminal verifiedAccountB = true :=
  ⟨rfl, rfl, by decide, rfl, rfl⟩

/-- Claim C8 amended: the five value-returning wrappers — ACH debit, order
fill, transaction confirmation, Lightning invoice and KYC approval — each
resolve with the first observed result their terminal check accepts within
the deadline (after any number of missed attempts); concretely,
waitForOrderFill over the sequence open, open, filled with maxWait 10000
returns the third result. waitForBankAccountVerification however discards
the polled result and resolves with the empty value. -/
theorem wrappers_return_first_satisfying_result :
    waitForOrderFill orderAccessor 10000 = Except.ok filledOrder ∧
    (∀ (fn : Nat → Except String Obj) (w N : Nat) (r : Obj),
      (∀ i, i < N → stepMiss fn (fun o => Except.ok (achDebitTerminal o)) i = true) →
      fn N = Except.ok r → achDebitTerminal r = true →
      N * 10000 < orDefault (some w) 30000 →
      waitForAchDebitCompletion fn w = Except.ok r) ∧
    (∀ (fn : Nat → Except String Obj) (w N : Nat) (r : Obj),
      (∀ i, i < N → stepMiss fn (fun o => Except.ok (orderFillTerminal o)) i = true) →
      fn N = Except.ok r → orderFillTerminal r = true →
      N * 2000 < orDefault (some w) 30000 →
      waitForOrderFill fn w = Except.ok r) ∧
    (∀ (fn : Nat → Except String Obj) (minC : Int) (w N : Nat) (r : Obj),
      (∀ i, i < N → stepMiss fn (fun o => Except.ok (transferConfirmed minC o)) i = true) →
      fn N = Except.ok r → transferConfirmed minC r = true →
      N * 15000 < orDefault (some w) 30000 →
      waitForTransactionConfirmation fn minC w = Except.ok r) ∧
    (∀ (fn : Nat → Except String Obj) (w N : Nat) (r : Obj),
      (∀ i, i < N → stepMiss fn (fun o => Except.ok (lightningInvoiceTerminal o)) i = true) →
      fn N = Except.ok r → lightningInvoiceTerminal r = true →
      N * 3000 < orDefault (some w) 30000 →
      waitForLightningInvoicePaid fn w = Except.ok r) ∧
    (∀ (fn : Nat → Except String Obj) (w N : Nat) (r : Obj),
      (∀ i, i < N → stepMiss fn (fun o => Except.ok (kycApprovalTerminal o)) i = true) →
      fn N = Except.ok r → kycApprovalTerminal r = true →
      N * 10000 < orDefault (some w) 30000 →
      waitForKycApproval fn w = Except.ok r) ∧
    (∀ (fn : Nat → Except String Obj) (bid : String) (w : Nat) (r : Obj) (n : Nat),
      pollUntil fn (fun o => Except.ok (bankAccountTerminal o)) (bankVerificationOptions bid w) =
        PollOutcome.ok r n →
      waitForBankAccountVerification fn bid w = Except.ok ()) := by
  refine ⟨rfl, ?_, ?_, ?_, ?_, ?_, ?_⟩
  · intro fn w N r hmiss hok hterm htime
    unfold waitForAchDebitCompletion
    apply pollUntilE_first_hit stringifyObj fn _ (achDebitOptions w) N r hmiss hok
    · show Except.ok (achDebitTerminal r) = Except.ok true
      rw [hterm]
    · exact htime
  · intro fn w N r hmiss hok hterm htime
    unfold waitForOrderFill
    apply pollUntilE_first_hit stringifyObj fn _ (orderFillOptions w) N r hmiss hok
    · show Except.ok (orderFillTerminal r) = Except.ok true
      rw [hterm]
    · exact htime
  · intro fn minC w N r hmiss hok hterm htime
    unfold waitForTransactionConfirmation
    apply pollUntilE_first_hit stringifyObj fn _ (transferConfirmationOptions w) N r hmiss hok
    · show Except.ok (transferConfirmed minC r) = Except.ok true
      rw [hterm]
    · exact htime
  · intro fn w N r hmiss hok hterm htime
    unfold waitForLightningInvoicePaid
    apply pollUntilE_first_hit stringifyObj fn _ (lightningInvoiceOptions w) N r hmiss hok
    · show Except.ok (lightningInvoiceTerminal r) = Except.ok true
      rw [hterm]
    · exact htime
  · intro fn w N r hmiss hok hterm htime
    unfold waitForKycApproval
    apply pollUntilE_first_hit stringifyObj fn _ (kycApprovalOptions w) N r hmiss hok
    · show Except.ok (kycApprovalTerminal r) = Except.ok true
      rw [hterm]
    · exact htime
  · intro fn bid w r n hrun
    unfold waitForBankAccountVerification pollUntilE
    rw [hrun]
    rfl

/-- Witness for the amended claim C8 at a concrete input: a bank
verification succeeding on its first attempt resolves with the empty
value. -/
theorem wrappers_return_first_satisfying_result_witness :
    waitForBankAccountVerification (fun _ => Except.ok verifiedAccount) "b1" 120000 =
      Except.ok () :=
  wrappers_return_first_satisfying_result.2.2.2.2.2.2 (fun _ => Except.ok verifiedAccount)
    "b1" 120000 verifiedAccount 1 rfl

/-- Claim C9 (confirmed): explicitly passing zero for a configuration value
selects the default through the || defaulting of the source: pollUntil with
maxWait 0 and pollInterval 0 behaves exactly as with 30000 and 1000 and
still performs at least one attempt, and retry with maxAttempts 0 behaves
exactly as with maxAttempts 3 and still performs at least one call. -/
theorem zero_options_fall_back_to_defaults {α : Type} (fn : Nat → Except String α)
    (cond : α → Except String Bool) (m : Option String) (op : Nat → Except String α) :
    pollUntil fn cond { maxWait := some 0, pollInterval := some 0, timeoutMessage := m } =
      pollUntil fn cond
        { maxWait := some 30000, pollInterval := some 1000, timeoutMessage := m } ∧
    1 ≤ pollCalls (pollUntil fn cond
      { maxWait := some 0, pollInterval := some 0, timeoutMessage := m }) ∧
    retry op { maxAttempts := some 0 } = retry op { maxAttempts := some 3 } ∧
    1 ≤ retryCalls (retry op { maxAttempts := some 0 }) := by
  refine ⟨rfl, ?_, rfl, ?_⟩
  · show 1 ≤ pollCalls (pollLoop fn cond
      (ceilDiv (orDefault (some 0) 30000) (orDefault (some 0) 1000)) 0 none)
    exact pollCalls_loop_pos fn cond _ 0 none (by decide)
  · exact retryCalls_loop_ge op 1000 10000 2 2 1 []

/-- Claim C10 (confirmed): waitForTransactionConfirmation reads
Number(transfer.confirmations || 0), so a missing confirmations field
counts as zero; hence for any threshold at most zero its terminal check
accepts every such result regardless of its status string, and the wrapper
returns the very first successfully observed result. -/
theorem missing_confirmations_counts_as_zero (fn : Nat → Except String Obj)
    (minConfirmations : Int) (maxWait : Nat) (N : Nat) (r : Obj)
    (hmin : minConfirmations ≤ 0)
    (hfail : ∀ i, i < N → isErr (fn i) = true)
    (hok : fn N = Except.ok r)
    (hconf : lookupField r "confirmations" = none)
    (htime : N * 15000 < orDefault (some maxWait) 30000) :
    transferConfirmed minConfirmations r = true ∧
    waitForTransactionConfirmation fn minConfirmations maxWait = Except.ok r := by
  have hterm : transferConfirmed minConfirmations r = true := by
    simp only [transferConfirmed, hconf, jor, jtruthy, jnumber, Bool.or_eq_true,
      decide_eq_true_eq]
    right
    simpa using hmin
  refine ⟨hterm, ?_⟩
  unfold waitForTransactionConfirmation
  apply pollUntilE_first_hit stringifyObj fn _ (transferConfirmationOptions maxWait) N r
  · intro i hi
    exact stepMiss_of_isErr _ _ i (hfail i hi)
  · exact hok
  · show Except.ok (transferConfirmed minConfirmations r) = Except.ok true
    rw [hterm]
  · exact htime

/-- Witness for claim C10 at a concrete input: threshold zero and a pending
result with no confirmations field is accepted and returned on the first
attempt. -/
theorem missing_confirmations_counts_as_zero_witness :
    transferConfirmed 0 pendingObj = true ∧
    waitForTransactionConfirmation (fun _ => Except.ok pendingObj) 0 600000 =
      Except.ok pendingObj :=
  missing_confirmations_counts_as_zero (fun _ => Except.ok pendingObj) 0 600000 0 pendingObj
    (by decide) (by decide) rfl rfl (by decide)
